import Mathlib

/-!
A verification development for the workout-tracking backend's
progressive-overload engine (`backend/app/routers/workout_sessions.py`).

Modelling conventions:
* Python `int` becomes `ℤ`, Python `float` becomes `ℚ` (the progression
  formulas are exact decimal arithmetic at the granularity the spec uses,
  so rational arithmetic models them faithfully).
* Nullable columns become `Option _`.
* `round(x, 1)` is modelled by `pyRound1` (round to one decimal place;
  the tie-breaking mode is irrelevant to every property proved here
  because both sides of each equation use the same rounding function).
* HTTP error responses become `Except ApiError _`; aborting with an
  HTTPException leaves the store untouched, which the pure `Except`
  model captures by construction.
-/

namespace MetricGain

/-- Muscle group set progression configuration, from the router module. -/
def STARTING_SETS : ℤ := 1

def BIG_MUSCLE_GROUPS : List String :=
  ["Chest", "Back", "Quadriceps", "Hamstrings", "Glutes"]

def SMALL_MUSCLE_GROUPS : List String :=
  ["Shoulders", "Biceps", "Triceps", "Calves", "Core"]

/-- `get_sets_for_week` from the router: number of sets for a muscle group
in a given week.  Final week of a positive-length block is a deload week
(1 set); otherwise `ceil(week_number * growth_rate + STARTING_SETS)` with
growth rate 1.0 for big muscle groups (and by default) and 1.5 for small
muscle groups. -/
def get_sets_for_week (muscle_group : String) (week_number : ℤ)
    (total_weeks : ℤ) : ℤ :=
  if total_weeks > 0 ∧ week_number = total_weeks then 1
  else
    let growth_rate : ℚ :=
      if muscle_group ∈ BIG_MUSCLE_GROUPS then 1.0
      else if muscle_group ∈ SMALL_MUSCLE_GROUPS then 1.5
      else 1.0
    Int.ceil ((week_number : ℚ) * growth_rate + (STARTING_SETS : ℤ))

/-- Python's `round(x, 1)`: round to one decimal place. -/
def pyRound1 (q : ℚ) : ℚ := ((Int.floor (q * 10 + 1 / 2) : ℤ) : ℚ) / 10

/-- The `Exercise` row fields the engine reads. -/
structure Exercise where
  id : ℤ
  muscle_group : String
deriving DecidableEq, Repr

/-- A `WorkoutExercise` row (template exercise) as read by the generator. -/
structure WorkoutExercise where
  exercise_id : ℤ
  order_index : ℤ
  target_reps_max : ℤ
  starting_rir : ℤ
deriving DecidableEq, Repr

/-- A `WorkoutSet` row.  Nullable columns are `Option`s; `skipped` is the
0/1 integer flag used by the router and schemas. -/
structure WorkoutSet where
  id : ℤ
  workout_session_id : ℤ
  exercise_id : ℤ
  set_number : ℤ
  order_index : ℤ
  weight : ℚ
  reps : ℤ
  rir : Option ℤ
  skipped : ℤ
  target_weight : Option ℚ
  target_reps : Option ℤ
  target_rir : Option ℤ
  notes : Option String
deriving DecidableEq, Repr

/-- A `WorkoutSession` row together with the sets it owns (the rows with
its `workout_session_id`). -/
structure WorkoutSession where
  id : ℤ
  user_id : ℤ
  week_number : ℤ
  day_number : ℤ
  status : String
  sets : List WorkoutSet
deriving DecidableEq, Repr

/-- HTTPException responses raised by the router. -/
inductive ApiError where
  | notFound (detail : String)
  | badRequest (detail : String)
deriving DecidableEq, Repr

/-- `exercise.muscle_group if exercise else "Other"`: the muscle-group
resolution used at both exercise-lookup sites of the generator. -/
def muscle_group_of : Option Exercise → String
  | some e => e.muscle_group
  | none => "Other"

lemma big_small_disjoint {mg : String} (hb : mg ∈ BIG_MUSCLE_GROUPS) :
    mg ∉ SMALL_MUSCLE_GROUPS := by
  simp only [BIG_MUSCLE_GROUPS, List.mem_cons, List.mem_singleton,
    List.not_mem_nil, or_false] at hb
  rcases hb with h | h | h | h | h <;> subst h <;> decide

/-- In the non-deload case, the formula spelled with the claim's rate
(1.5 on the Small set, 1.0 everywhere else). -/
lemma get_sets_for_week_growth (mg : String) (w t : ℤ)
    (h : ¬(t > 0 ∧ w = t)) :
    get_sets_for_week mg w t =
      Int.ceil ((w : ℚ) *
        (if mg ∈ SMALL_MUSCLE_GROUPS then 1.5 else 1.0) + 1) := by
  unfold get_sets_for_week
  rw [if_neg h]
  by_cases hb : mg ∈ BIG_MUSCLE_GROUPS
  · rw [if_pos hb, if_neg (big_small_disjoint hb)]
    norm_num [STARTING_SETS]
  · rw [if_neg hb]
    by_cases hs : mg ∈ SMALL_MUSCLE_GROUPS
    · rw [if_pos hs]
      norm_num [STARTING_SETS]
    · rw [if_neg hs]
      norm_num [STARTING_SETS]

lemma one_le_get_sets_for_week (mg : String) (w t : ℤ) (hw : 1 ≤ w) :
    1 ≤ get_sets_for_week mg w t := by
  unfold get_sets_for_week
  split
  · exact le_refl 1
  · have hrate : (1 : ℚ) ≤
        (if mg ∈ BIG_MUSCLE_GROUPS then (1.0 : ℚ)
         else if mg ∈ SMALL_MUSCLE_GROUPS then 1.5 else 1.0) := by
      split
      · norm_num
      · split <;> norm_num
    set g : ℚ :=
      (if mg ∈ BIG_MUSCLE_GROUPS then (1.0 : ℚ)
       else if mg ∈ SMALL_MUSCLE_GROUPS then 1.5 else 1.0) with hg
    have hwq : (1 : ℚ) ≤ (w : ℚ) := by exact_mod_cast hw
    have h2 : (1 : ℚ) ≤ (w : ℚ) * g + (STARTING_SETS : ℤ) := by
      have : (1 : ℚ) * 1 ≤ (w : ℚ) * g :=
        mul_le_mul hwq hrate (by norm_num) (le_trans (by norm_num) hwq)
      simp only [STARTING_SETS]
      push_cast
      nlinarith
    calc (1 : ℤ) = Int.ceil (1 : ℚ) := by simp
    _ ≤ Int.ceil ((w : ℚ) * g + (STARTING_SETS : ℤ)) := Int.ceil_le_ceil h2

/-- C1: `sets_for_week` returns exactly 1 on the deload week
(`t > 0 ∧ w = t`) regardless of muscle group; otherwise it returns
`ceil(w * r + 1)` with `r = 1.5` for the Small muscle groups and
`r = 1.0` for the Big set and every other label; and the result is
always an integer ≥ 1. -/
theorem sets_for_week_spec (mg : String) (w t : ℤ) (hw : 1 ≤ w) :
    (t > 0 ∧ w = t → get_sets_for_week mg w t = 1) ∧
    (¬(t > 0 ∧ w = t) →
      get_sets_for_week mg w t =
        Int.ceil ((w : ℚ) *
          (if mg ∈ SMALL_MUSCLE_GROUPS then 1.5 else 1.0) + 1)) ∧
    1 ≤ get_sets_for_week mg w t := by
  refine ⟨fun h => ?_, fun h => get_sets_for_week_growth mg w t h,
    one_le_get_sets_for_week mg w t hw⟩
  unfold get_sets_for_week
  rw [if_pos h]

/-- Witness for C1 at the spec's own example: `sets_for_week("Shoulders", 3, 0) = ceil(3 * 1.5 + 1) = 6`. -/
theorem sets_for_week_spec_witness :
    (1 : ℤ) ≤ 3 ∧ get_sets_for_week "Shoulders" 3 0 =
      Int.ceil ((3 : ℚ) *
        (if "Shoulders" ∈ SMALL_MUSCLE_GROUPS then 1.5 else 1.0) + 1) :=
  ⟨by decide,
   (sets_for_week_spec "Shoulders" 3 0 (by decide)).2.1 (by decide)⟩

/-- One generated set of `_generate_sets_from_template` for template
exercise `te` and 1-based `set_num`. -/
def template_set (session_id : ℤ) (te : WorkoutExercise) (set_num : ℤ) :
    WorkoutSet :=
  { id := 0
    workout_session_id := session_id
    exercise_id := te.exercise_id
    set_number := set_num
    order_index := te.order_index * 100 + set_num
    weight := 0
    reps := 0
    rir := none
    skipped := 0
    target_weight := none
    target_reps := some te.target_reps_max
    target_rir := some te.starting_rir
    notes := none }

/-- The sets `_generate_sets_from_template` creates for one template
exercise: the muscle group comes from the exercise lookup (`"Other"` when
the lookup finds nothing), and `set_num` ranges over
`range(1, num_sets + 1)`. -/
def gen_template_exercise_sets (lookup : ℤ → Option Exercise)
    (session_id : ℤ) (te : WorkoutExercise) (week_number total_weeks : ℤ) :
    List WorkoutSet :=
  let muscle_group := muscle_group_of (lookup te.exercise_id)
  let num_sets := get_sets_for_week muscle_group week_number total_weeks
  (List.range num_sets.toNat).map
    (fun (i : ℕ) => template_set session_id te ((i : ℤ) + 1))

/-- `_generate_sets_from_template` over the whole template. -/
def generate_sets_from_template (lookup : ℤ → Option Exercise)
    (session_id : ℤ) (template_exercises : List WorkoutExercise)
    (week_number total_weeks : ℤ) : List WorkoutSet :=
  template_exercises.flatMap
    (fun te => gen_template_exercise_sets lookup session_id te
      week_number total_weeks)

/-- Carry-forward target weight (router lines 150-153): project from the
matched previous set only when it actually logged a positive weight. -/
def gen_target_weight : Option WorkoutSet → Option ℚ
  | some prev_set =>
      if prev_set.weight > 0 then
        some (pyRound1 (prev_set.weight + max (prev_set.weight * 0.025) 2.5))
      else none
  | none => none

/-- Carry-forward target reps (router lines 156-158): actual reps
performed in the previous week when positive, else the fallback set's
previous target. -/
def gen_target_reps (prev_set : Option WorkoutSet)
    (fallback_set : WorkoutSet) : Option ℤ :=
  match prev_set with
  | some p => if p.reps > 0 then some p.reps else fallback_set.target_reps
  | none => fallback_set.target_reps

/-- The sets Branch A (carry-forward) creates for one exercise group of
the previous session.  `prev_exercise_sets` is that exercise's list of
sets in the previous session, in query order.  The `filterMap` returns
`none` only when the group is empty (in the source the group is nonempty
by construction, and `prev_exercise_sets[-1]` would fault otherwise). -/
def gen_carry_forward_sets (session_id exercise_id : ℤ)
    (muscle_group : String) (prev_week this_week total_weeks : ℤ)
    (prev_exercise_sets : List WorkoutSet) : List WorkoutSet :=
  let expected_prev := get_sets_for_week muscle_group prev_week total_weeks
  let actual_prev : ℤ := prev_exercise_sets.length
  let offset := actual_prev - expected_prev
  let num_sets : ℤ :=
    if total_weeks > 0 ∧ this_week = total_weeks then 1
    else max 1 (get_sets_for_week muscle_group this_week total_weeks + offset)
  (List.range num_sets.toNat).filterMap (fun (i : ℕ) =>
    let set_num : ℤ := (i : ℤ) + 1
    let prev_set := prev_exercise_sets.find? (fun s => s.set_number = set_num)
    match prev_set.orElse (fun _ => prev_exercise_sets.getLast?) with
    | none => none
    | some fallback_set =>
        some { id := 0
               workout_session_id := session_id
               exercise_id := exercise_id
               set_number := set_num
               order_index := fallback_set.order_index
               weight := 0
               reps := 0
               rir := none
               skipped := 0
               target_weight := gen_target_weight prev_set
               target_reps := gen_target_reps prev_set fallback_set
               target_rir := fallback_set.target_rir
               notes := none })

/-! ### Target Refresher (`get_workout_session`, router lines 311-351) -/

/-- The refresher's recomputed target weight (router line 341). -/
def refresh_new_target (prev_set : WorkoutSet) : ℚ :=
  pyRound1 (prev_set.weight + max (prev_set.weight * 0.025) 2.5)

/-- The reps update of the refresher loop body (router lines 337-339). -/
def apply_reps_refresh (prev_set ws : WorkoutSet) : WorkoutSet × Bool :=
  if prev_set.reps > 0 ∧ ws.target_reps ≠ some prev_set.reps then
    ({ ws with target_reps := some prev_set.reps }, true)
  else (ws, false)

/-- The weight update of the refresher loop body (router lines 340-344). -/
def apply_weight_refresh (prev_set ws : WorkoutSet) : WorkoutSet × Bool :=
  if prev_set.weight > 0 then
    if ws.target_weight ≠ some (refresh_new_target prev_set) then
      ({ ws with target_weight := some (refresh_new_target prev_set) }, true)
    else (ws, false)
  else (ws, false)

/-- One iteration of the refresher loop: match the previous session's set
with the same exercise and set number, then update stale targets.  The
`Bool` is this set's contribution to the dirty flag. -/
def refresh_set (prev_sets : List WorkoutSet) (ws : WorkoutSet) :
    WorkoutSet × Bool :=
  let prev_exercise_sets :=
    prev_sets.filter (fun s => s.exercise_id = ws.exercise_id)
  if prev_exercise_sets.isEmpty then (ws, false)
  else
    match prev_exercise_sets.find? (fun s => s.set_number = ws.set_number) with
    | none => (ws, false)
    | some prev_set =>
        let r1 := apply_reps_refresh prev_set ws
        let r2 := apply_weight_refresh prev_set r1.1
        (r2.1, r1.2 || r2.2)

/-- The refresher over all of a session's sets; the `Bool` is the dirty
flag accumulated across the loop. -/
def refresh_sets (prev_sets sets : List WorkoutSet) :
    List WorkoutSet × Bool :=
  let refreshed := sets.map (refresh_set prev_sets)
  (refreshed.map Prod.fst, refreshed.any Prod.snd)

/-- The read-triggered refresh of `get_workout_session`: only for
`in_progress` sessions past week 1, only when a same-instance previous
session exists (`prev` is its sets), and committing (replacing the
stored sets) only when the dirty flag is set.  Returns the stored
session after the read and the dirty flag. -/
def target_refresh (prev : Option (List WorkoutSet))
    (s : WorkoutSession) : WorkoutSession × Bool :=
  if s.status = "in_progress" ∧ s.week_number > 1 then
    match prev with
    | some prev_sets =>
        let r := refresh_sets prev_sets s.sets
        if r.2 then ({ s with sets := r.1 }, true) else (s, false)
    | none => (s, false)
  else (s, false)

/-! ### Session mutation operations -/

/-- `_reject_if_completed`. -/
def reject_if_completed (s : WorkoutSession) : Except ApiError Unit :=
  if s.status = "completed" then
    .error (.badRequest "Cannot modify a completed session")
  else .ok ()

/-- The first element of the exercise's sets ordered by `set_number`
descending (`argmax` returns the earliest set with the largest
`set_number`, matching a stable descending sort). -/
def last_set_of (sets : List WorkoutSet) : Option WorkoutSet :=
  sets.argmax (fun ws => ws.set_number)

/-- The per-set update of `swap_exercise`'s loop (router lines 609-614):
swap the exercise reference and reset performance data. -/
def migrate_set (old_exercise_id new_exercise_id : ℤ) (ws : WorkoutSet) :
    WorkoutSet :=
  if ws.exercise_id = old_exercise_id then
    { ws with exercise_id := new_exercise_id, weight := 0, reps := 0,
              target_weight := none, skipped := 0 }
  else ws

/-- `swap_exercise`: reassign every set of `old_exercise_id` to
`new_exercise_id`, resetting performance data.  `lookup` models the
`Exercise` table. -/
def swap_exercise (lookup : ℤ → Option Exercise) (s : WorkoutSession)
    (old_exercise_id new_exercise_id : ℤ) :
    Except ApiError WorkoutSession := do
  reject_if_completed s
  match lookup new_exercise_id with
  | none => .error (.notFound "New exercise not found")
  | some _ =>
      let old_sets := s.sets.filter (fun ws => ws.exercise_id = old_exercise_id)
      if old_sets.isEmpty then
        .error (.notFound "Old exercise not found in this session")
      else
        .ok { s with sets := s.sets.map (migrate_set old_exercise_id new_exercise_id) }

/-- `remove_exercise`: delete all sets of the exercise; 404 when none. -/
def remove_exercise (s : WorkoutSession) (exercise_id : ℤ) :
    Except ApiError WorkoutSession := do
  reject_if_completed s
  let deleted := s.sets.filter (fun ws => ws.exercise_id = exercise_id)
  if deleted.isEmpty then
    .error (.notFound "Exercise not found in this session")
  else
    .ok { s with sets := s.sets.filter (fun ws => ws.exercise_id ≠ exercise_id) }

/-- `add_exercise`: append fresh sets for a new exercise.  `total_weeks`
models `template.mesocycle.weeks` (0 when absent). -/
def add_exercise (lookup : ℤ → Option Exercise) (s : WorkoutSession)
    (exercise_id total_weeks : ℤ) : Except ApiError WorkoutSession := do
  reject_if_completed s
  match lookup exercise_id with
  | none => .error (.notFound "Exercise not found")
  | some exercise =>
      if (s.sets.filter (fun ws => ws.exercise_id = exercise_id)).isEmpty then
        let max_order := ((s.sets.map (fun ws => ws.order_index)).max?).getD 0
        let new_order_index := max_order + 100
        let num_sets := get_sets_for_week exercise.muscle_group
          s.week_number total_weeks
        .ok { s with sets := s.sets ++
          (List.range num_sets.toNat).map (fun (i : ℕ) =>
            { id := 0
              workout_session_id := s.id
              exercise_id := exercise_id
              set_number := (i : ℤ) + 1
              order_index := new_order_index
              weight := 0
              reps := 0
              rir := none
              skipped := 0
              target_weight := none
              target_reps := none
              target_rir := some 3
              notes := none }) }
      else .error (.badRequest "Exercise already exists in this session")

/-- `add_set_to_exercise`: append one set after the exercise's last set. -/
def add_set_to_exercise (s : WorkoutSession) (exercise_id : ℤ) :
    Except ApiError WorkoutSession := do
  reject_if_completed s
  let existing_sets := s.sets.filter (fun ws => ws.exercise_id = exercise_id)
  match last_set_of existing_sets with
  | none => .error (.notFound "Exercise not found in this session")
  | some last_set =>
      .ok { s with sets := s.sets ++
        [{ id := 0
           workout_session_id := s.id
           exercise_id := exercise_id
           set_number := last_set.set_number + 1
           order_index := last_set.order_index
           weight := 0
           reps := 0
           rir := none
           skipped := 0
           target_weight := none
           target_reps := last_set.target_reps
           target_rir := last_set.target_rir
           notes := none }] }

/-- `remove_set_from_exercise`: delete the exercise's highest-numbered
set; 400 when only one set remains. -/
def remove_set_from_exercise (s : WorkoutSession) (exercise_id : ℤ) :
    Except ApiError WorkoutSession := do
  reject_if_completed s
  let existing_sets := s.sets.filter (fun ws => ws.exercise_id = exercise_id)
  match last_set_of existing_sets with
  | none => .error (.notFound "Exercise not found in this session")
  | some victim =>
      if existing_sets.length ≤ 1 then
        .error (.badRequest "Cannot remove the last set")
      else
        .ok { s with sets := s.sets.filter (fun ws => ws.id ≠ victim.id) }

/-- `WorkoutSetUpdate` with `exclude_unset` semantics: `none` means the
field was not part of the PATCH body. -/
structure WorkoutSetUpdate where
  exercise_id : Option ℤ := none
  set_number : Option ℤ := none
  order_index : Option ℤ := none
  weight : Option ℚ := none
  reps : Option ℤ := none
  rir : Option ℤ := none
  skipped : Option ℤ := none
  target_weight : Option ℚ := none
  target_reps : Option ℤ := none
  target_rir : Option ℤ := none
  notes : Option String := none
deriving DecidableEq, Repr

/-- `setattr` application of a `WorkoutSetUpdate` to one set. -/
def apply_set_update (u : WorkoutSetUpdate) (ws : WorkoutSet) : WorkoutSet :=
  { ws with
    exercise_id := u.exercise_id.getD ws.exercise_id
    set_number := u.set_number.getD ws.set_number
    order_index := u.order_index.getD ws.order_index
    weight := u.weight.getD ws.weight
    reps := u.reps.getD ws.reps
    rir := match u.rir with | some v => some v | none => ws.rir
    skipped := u.skipped.getD ws.skipped
    target_weight :=
      match u.target_weight with | some v => some v | none => ws.target_weight
    target_reps :=
      match u.target_reps with | some v => some v | none => ws.target_reps
    target_rir :=
      match u.target_rir with | some v => some v | none => ws.target_rir
    notes := match u.notes with | some v => some v | none => ws.notes }

/-- `update_workout_set` (PATCH a single set).  The source performs no
completed-status check on this endpoint. -/
def update_workout_set (s : WorkoutSession) (set_id : ℤ)
    (u : WorkoutSetUpdate) : Except ApiError WorkoutSession :=
  match s.sets.find? (fun ws => ws.id = set_id) with
  | none => .error (.notFound "Workout set not found")
  | some _ =>
      .ok { s with sets := s.sets.map (fun ws =>
        if ws.id = set_id then apply_set_update u ws else ws) }

/-- `add_workout_set` (POST a raw set).  No completed-status check. -/
def add_workout_set (s : WorkoutSession) (set_data : WorkoutSet) :
    Except ApiError WorkoutSession :=
  .ok { s with sets := s.sets ++
    [{ set_data with workout_session_id := s.id }] }

/-- `delete_workout_set` (DELETE a single set).  No completed-status
check. -/
def delete_workout_set (s : WorkoutSession) (set_id : ℤ) :
    Except ApiError WorkoutSession :=
  match s.sets.find? (fun ws => ws.id = set_id) with
  | none => .error (.notFound "Workout set not found")
  | some _ => .ok { s with sets := s.sets.filter (fun ws => ws.id ≠ set_id) }

/-- Specification-side definition of the Target Projection component
(spec §4.3), written from the spec's words, to be compared with the two
inline occurrences of the formula in the source (`gen_target_weight`
and `refresh_new_target`). -/
def project_weight (prev_logged_weight : ℚ) : Option ℚ :=
  if prev_logged_weight > 0 then
    some (pyRound1 (prev_logged_weight +
      max (prev_logged_weight * 0.025) 2.5))
  else none

/-- A sample logged set used to instantiate hypothesis-bearing theorems. -/
def sampleSet : WorkoutSet :=
  { id := 1
    workout_session_id := 10
    exercise_id := 1
    set_number := 1
    order_index := 100
    weight := 100
    reps := 10
    rir := none
    skipped := 0
    target_weight := none
    target_reps := some 10
    target_rir := some 2
    notes := none }

lemma length_filterMap_of_forall_isSome {α β : Type} (f : α → Option β)
    (l : List α) (h : ∀ a ∈ l, (f a).isSome) :
    (l.filterMap f).length = l.length := by
  induction l with
  | nil => simp
  | cons a l ih =>
    rcases Option.isSome_iff_exists.mp (h a (List.mem_cons_self a l)) with
      ⟨b, hb⟩
    simp [List.filterMap_cons, hb,
      ih (fun x hx => h x (List.mem_cons_of_mem a hx))]

/-- C2: in carry-forward generation, with `offset` the difference
between the previous session's actual and expected per-exercise set
counts, the number of generated sets is 1 on the deload week and
`max 1 (sets_for_week(mg, this_week, total_weeks) + offset)`
otherwise. -/
theorem carry_forward_set_count (sid eid : ℤ) (mg : String)
    (prev_week this_week total_weeks : ℤ) (prev : List WorkoutSet)
    (hne : prev ≠ []) :
    ((gen_carry_forward_sets sid eid mg prev_week this_week total_weeks
        prev).length : ℤ) =
      if total_weeks > 0 ∧ this_week = total_weeks then 1
      else
        max 1 (get_sets_for_week mg this_week total_weeks +
          ((prev.length : ℤ) - get_sets_for_week mg prev_week total_weeks)) := by
  rcases Option.isSome_iff_exists.mp (List.getLast?_isSome.mpr hne) with
    ⟨lst, hlst⟩
  simp only [gen_carry_forward_sets]
  rw [length_filterMap_of_forall_isSome]
  · rw [List.length_range]
    have h1 : (1 : ℤ) ≤
        (if total_weeks > 0 ∧ this_week = total_weeks then 1
         else max 1 (get_sets_for_week mg this_week total_weeks +
           ((prev.length : ℤ) - get_sets_for_week mg prev_week total_weeks))) := by
      split
      · exact le_refl 1
      · exact le_max_left 1 _
    rw [Int.toNat_of_nonneg (le_trans (by norm_num) h1)]
  · intro i _
    cases hfind : prev.find? (fun s => s.set_number = ((i : ℤ) + 1)) with
    | none => simp [hfind, Option.orElse, hlst]
    | some p => simp [hfind, Option.orElse]

/-- Witness for C2: one previous set for a Chest exercise going from
week 1 to week 2 of a 6-week block (offset `1 - 2 = -1`). -/
theorem carry_forward_set_count_witness :
    [sampleSet] ≠ ([] : List WorkoutSet) ∧
    ((gen_carry_forward_sets 11 1 "Chest" 1 2 6 [sampleSet]).length : ℤ) =
      if (6 : ℤ) > 0 ∧ (2 : ℤ) = 6 then 1
      else
        max 1 (get_sets_for_week "Chest" 2 6 +
          (([sampleSet].length : ℤ) - get_sets_for_week "Chest" 1 6)) :=
  ⟨List.cons_ne_nil _ _,
   carry_forward_set_count 11 1 "Chest" 1 2 6 [sampleSet]
     (List.cons_ne_nil _ _)⟩

/-- C5: for a positive previously logged weight the projection is
`round(w + max(w * 0.025, 2.5), 1)` and for a non-positive weight there
is no projection; `project_weight 100 = 102.5`, `project_weight 0 =
null`; and the carry-forward generator and the refresher both use this
projection. -/
theorem project_weight_agreement :
    (∀ w : ℚ, w > 0 →
      project_weight w = some (pyRound1 (w + max (w * 0.025) 2.5))) ∧
    (∀ w : ℚ, w ≤ 0 → project_weight w = none) ∧
    project_weight 100 = some 102.5 ∧
    project_weight 0 = none ∧
    (∀ p : WorkoutSet, gen_target_weight (some p) = project_weight p.weight) ∧
    (∀ p : WorkoutSet,
      refresh_new_target p = pyRound1 (p.weight + max (p.weight * 0.025) 2.5)) ∧
    (∀ p : WorkoutSet, p.weight > 0 →
      project_weight p.weight = some (refresh_new_target p)) := by
  refine ⟨fun w hw => ?_, fun w hw => ?_, ?_, ?_, fun p => ?_, fun p => rfl,
    fun p hp => ?_⟩
  · rw [project_weight, if_pos hw]
  · rw [project_weight, if_neg (not_lt.mpr hw)]
  · rw [project_weight, if_pos (by norm_num)]
    norm_num [pyRound1]
  · rw [project_weight, if_neg (by norm_num)]
  · rw [gen_target_weight, project_weight]
  · rw [project_weight, if_pos hp, refresh_new_target]

/-- Witness for C5 at the spec's example input `w = 100`. -/
theorem project_weight_agreement_witness :
    (0 : ℚ) < 100 ∧
    project_weight 100 = some (pyRound1 (100 + max ((100 : ℚ) * 0.025) 2.5)) :=
  ⟨by norm_num, project_weight_agreement.1 100 (by norm_num)⟩

/-- C8: fresh-from-template generation creates exactly
`sets_for_week(muscle_group, week, total_weeks)` sets per template
exercise, each with `target_weight = null`,
`target_reps = target_reps_max`, `target_rir = starting_rir`, logged
weight and reps 0, and `order_index = order_index * 100 + set_number`. -/
theorem template_generation_spec (lookup : ℤ → Option Exercise)
    (sid : ℤ) (te : WorkoutExercise) (w t : ℤ) (hw : 1 ≤ w) :
    ((gen_template_exercise_sets lookup sid te w t).length : ℤ) =
      get_sets_for_week (muscle_group_of (lookup te.exercise_id)) w t ∧
    ∀ ws ∈ gen_template_exercise_sets lookup sid te w t,
      ws.exercise_id = te.exercise_id ∧
      ws.target_weight = none ∧
      ws.target_reps = some te.target_reps_max ∧
      ws.target_rir = some te.starting_rir ∧
      ws.weight = 0 ∧ ws.reps = 0 ∧
      ws.order_index = te.order_index * 100 + ws.set_number := by
  constructor
  · simp only [gen_template_exercise_sets, List.length_map, List.length_range]
    exact Int.toNat_of_nonneg
      (le_trans (by norm_num)
        (one_le_get_sets_for_week (muscle_group_of (lookup te.exercise_id)) w t hw))
  · intro ws hws
    simp only [gen_template_exercise_sets, List.mem_map, List.mem_range] at hws
    rcases hws with ⟨i, _, rfl⟩
    simp [template_set]

/-- Witness for C8: a concrete template exercise in week 1 of a 6-week
block, with an empty exercise table. -/
theorem template_generation_spec_witness :
    (1 : ℤ) ≤ 1 ∧
    (((gen_template_exercise_sets (fun _ => none) 10
        ⟨1, 1, 12, 3⟩ 1 6).length : ℤ) =
      get_sets_for_week (muscle_group_of ((fun (_ : ℤ) => none) (1 : ℤ))) 1 6 ∧
    ∀ ws ∈ gen_template_exercise_sets (fun _ => none) 10 ⟨1, 1, 12, 3⟩ 1 6,
      ws.exercise_id = (1 : ℤ) ∧
      ws.target_weight = none ∧
      ws.target_reps = some 12 ∧
      ws.target_rir = some 3 ∧
      ws.weight = 0 ∧ ws.reps = 0 ∧
      ws.order_index = 1 * 100 + ws.set_number) :=
  ⟨le_refl 1,
   template_generation_spec (fun _ => none) 10 ⟨1, 1, 12, 3⟩ 1 6 (le_refl 1)⟩

/-- C9: when the exercise lookup for a template exercise fails,
generation still succeeds and produces a nonempty batch of sets sized by
the `"Other"` muscle group, whose set count matches the Big/Default
class for every week; the failure is absorbed, never propagated. -/
theorem missing_exercise_defaults_to_other (lookup : ℤ → Option Exercise)
    (sid : ℤ) (te : WorkoutExercise) (w t : ℤ)
    (hmiss : lookup te.exercise_id = none) (hw : 1 ≤ w) :
    muscle_group_of (lookup te.exercise_id) = "Other" ∧
    gen_template_exercise_sets lookup sid te w t ≠ [] ∧
    ((gen_template_exercise_sets lookup sid te w t).length : ℤ) =
      get_sets_for_week "Other" w t ∧
    (∀ mg ∈ BIG_MUSCLE_GROUPS, ∀ w' t' : ℤ,
      get_sets_for_week "Other" w' t' = get_sets_for_week mg w' t') := by
  have hmg : muscle_group_of (lookup te.exercise_id) = "Other" := by
    rw [hmiss, muscle_group_of]
  have hlen : ((gen_template_exercise_sets lookup sid te w t).length : ℤ) =
      get_sets_for_week "Other" w t := by
    simp only [gen_template_exercise_sets, List.length_map, List.length_range,
      hmg]
    exact Int.toNat_of_nonneg
      (le_trans (by norm_num) (one_le_get_sets_for_week "Other" w t hw))
  refine ⟨hmg, ?_, hlen, fun mg hmgBig w' t' => ?_⟩
  · intro hnil
    have : ((0 : ℕ) : ℤ) = get_sets_for_week "Other" w t := by
      rw [← hlen, hnil]; rfl
    have h1 := one_le_get_sets_for_week "Other" w t hw
    omega
  · by_cases hd : t' > 0 ∧ w' = t'
    · unfold get_sets_for_week
      rw [if_pos hd, if_pos hd]
    · rw [get_sets_for_week_growth _ _ _ hd, get_sets_for_week_growth _ _ _ hd,
        if_neg (by decide : ¬ "Other" ∈ SMALL_MUSCLE_GROUPS),
        if_neg (big_small_disjoint hmgBig)]

/-- Witness for C9 at a concrete missing lookup, week 2 of a 6-week
block. -/
theorem missing_exercise_defaults_to_other_witness :
    (fun (_ : ℤ) => (none : Option Exercise)) (1 : ℤ) = none ∧
    (1 : ℤ) ≤ 2 ∧
    (muscle_group_of ((fun (_ : ℤ) => (none : Option Exercise)) (1 : ℤ)) =
        "Other" ∧
      gen_template_exercise_sets (fun _ => none) 10 ⟨1, 1, 12, 3⟩ 2 6 ≠ [] ∧
      ((gen_template_exercise_sets (fun _ => none) 10
          ⟨1, 1, 12, 3⟩ 2 6).length : ℤ) = get_sets_for_week "Other" 2 6 ∧
      (∀ mg ∈ BIG_MUSCLE_GROUPS, ∀ w' t' : ℤ,
        get_sets_for_week "Other" w' t' = get_sets_for_week mg w' t')) :=
  ⟨rfl, by decide,
   missing_exercise_defaults_to_other (fun _ => none) 10 ⟨1, 1, 12, 3⟩ 2 6
     rfl (by decide)⟩

lemma apply_reps_refresh_frame (p ws : WorkoutSet) :
    ((apply_reps_refresh p ws).1).exercise_id = ws.exercise_id ∧
    ((apply_reps_refresh p ws).1).set_number = ws.set_number ∧
    ((apply_reps_refresh p ws).1).order_index = ws.order_index ∧
    ((apply_reps_refresh p ws).1).weight = ws.weight ∧
    ((apply_reps_refresh p ws).1).reps = ws.reps ∧
    ((apply_reps_refresh p ws).1).rir = ws.rir ∧
    ((apply_reps_refresh p ws).1).skipped = ws.skipped ∧
    ((apply_reps_refresh p ws).1).notes = ws.notes ∧
    ((apply_reps_refresh p ws).1).target_rir = ws.target_rir ∧
    ((apply_reps_refresh p ws).1).target_weight = ws.target_weight := by
  simp only [apply_reps_refresh]
  split <;> simp

lemma apply_weight_refresh_frame (p ws : WorkoutSet) :
    ((apply_weight_refresh p ws).1).exercise_id = ws.exercise_id ∧
    ((apply_weight_refresh p ws).1).set_number = ws.set_number ∧
    ((apply_weight_refresh p ws).1).order_index = ws.order_index ∧
    ((apply_weight_refresh p ws).1).weight = ws.weight ∧
    ((apply_weight_refresh p ws).1).reps = ws.reps ∧
    ((apply_weight_refresh p ws).1).rir = ws.rir ∧
    ((apply_weight_refresh p ws).1).skipped = ws.skipped ∧
    ((apply_weight_refresh p ws).1).notes = ws.notes ∧
    ((apply_weight_refresh p ws).1).target_rir = ws.target_rir ∧
    ((apply_weight_refresh p ws).1).target_reps = ws.target_reps := by
  simp only [apply_weight_refresh]
  split
  · split <;> simp
  · simp

lemma apply_reps_refresh_target_reps_pos (p ws : WorkoutSet)
    (h : p.reps > 0) :
    ((apply_reps_refresh p ws).1).target_reps = some p.reps := by
  simp only [apply_reps_refresh]
  by_cases hne : ws.target_reps = some p.reps
  · rw [if_neg (by simp [hne])]
    exact hne
  · rw [if_pos ⟨h, hne⟩]

lemma apply_reps_refresh_nochange (p ws : WorkoutSet)
    (h : p.reps > 0 → ws.target_reps = some p.reps) :
    apply_reps_refresh p ws = (ws, false) := by
  rw [apply_reps_refresh, if_neg]
  rintro ⟨h1, h2⟩
  exact h2 (h h1)

lemma apply_weight_refresh_target_weight_pos (p ws : WorkoutSet)
    (h : p.weight > 0) :
    ((apply_weight_refresh p ws).1).target_weight =
      some (refresh_new_target p) := by
  simp only [apply_weight_refresh, if_pos h]
  by_cases hne : ws.target_weight = some (refresh_new_target p)
  · rw [if_neg (by simp [hne])]
    exact hne
  · rw [if_pos hne]

lemma apply_weight_refresh_nochange (p ws : WorkoutSet)
    (h : p.weight > 0 → ws.target_weight = some (refresh_new_target p)) :
    apply_weight_refresh p ws = (ws, false) := by
  rw [apply_weight_refresh]
  by_cases hw : p.weight > 0
  · rw [if_pos hw, if_neg (by simp [h hw])]
  · rw [if_neg hw]

lemma apply_weight_refresh_keeps_or_sets (p ws : WorkoutSet) :
    ((apply_weight_refresh p ws).1).target_weight = ws.target_weight ∨
    ((apply_weight_refresh p ws).1).target_weight =
      some (refresh_new_target p) := by
  simp only [apply_weight_refresh]
  split
  · split
    · right; rfl
    · left; rfl
  · left; rfl

lemma apply_weight_refresh_neg (p ws : WorkoutSet) (h : ¬ p.weight > 0) :
    apply_weight_refresh p ws = (ws, false) := by
  rw [apply_weight_refresh, if_neg h]

/-- The matched previous set of the refresher loop body for `ws`. -/
def refresh_match (prev_sets : List WorkoutSet) (ws : WorkoutSet) :
    Option WorkoutSet :=
  (prev_sets.filter (fun s => s.exercise_id = ws.exercise_id)).find?
    (fun s => s.set_number = ws.set_number)

lemma refresh_set_eq_of_none (prev_sets : List WorkoutSet)
    (ws : WorkoutSet) (hfind : refresh_match prev_sets ws = none) :
    refresh_set prev_sets ws = (ws, false) := by
  rw [refresh_match] at hfind
  simp only [refresh_set]
  split
  · rfl
  · rw [hfind]

lemma refresh_set_eq_of_find (prev_sets : List WorkoutSet)
    (ws p : WorkoutSet) (hfind : refresh_match prev_sets ws = some p) :
    refresh_set prev_sets ws =
      ((apply_weight_refresh p (apply_reps_refresh p ws).1).1,
        (apply_reps_refresh p ws).2 ||
          (apply_weight_refresh p (apply_reps_refresh p ws).1).2) := by
  rw [refresh_match] at hfind
  have hne : ¬ (prev_sets.filter
      (fun s => s.exercise_id = ws.exercise_id)).isEmpty = true := by
    intro h
    rw [List.isEmpty_iff.mp h] at hfind
    simp at hfind
  simp only [refresh_set]
  rw [if_neg hne, hfind]

lemma refresh_set_frame (prev_sets : List WorkoutSet) (ws : WorkoutSet) :
    ((refresh_set prev_sets ws).1).exercise_id = ws.exercise_id ∧
    ((refresh_set prev_sets ws).1).set_number = ws.set_number ∧
    ((refresh_set prev_sets ws).1).order_index = ws.order_index ∧
    ((refresh_set prev_sets ws).1).weight = ws.weight ∧
    ((refresh_set prev_sets ws).1).reps = ws.reps ∧
    ((refresh_set prev_sets ws).1).rir = ws.rir ∧
    ((refresh_set prev_sets ws).1).skipped = ws.skipped ∧
    ((refresh_set prev_sets ws).1).notes = ws.notes ∧
    ((refresh_set prev_sets ws).1).target_rir = ws.target_rir := by
  cases hfind : refresh_match prev_sets ws with
  | none => rw [refresh_set_eq_of_none prev_sets ws hfind]
            exact ⟨rfl, rfl, rfl, rfl, rfl, rfl, rfl, rfl, rfl⟩
  | some p =>
      rw [refresh_set_eq_of_find prev_sets ws p hfind]
      have h1 := apply_reps_refresh_frame p ws
      have h2 := apply_weight_refresh_frame p (apply_reps_refresh p ws).1
      exact ⟨h2.1.trans h1.1, h2.2.1.trans h1.2.1,
        h2.2.2.1.trans h1.2.2.1, h2.2.2.2.1.trans h1.2.2.2.1,
        h2.2.2.2.2.1.trans h1.2.2.2.2.1,
        h2.2.2.2.2.2.1.trans h1.2.2.2.2.2.1,
        h2.2.2.2.2.2.2.1.trans h1.2.2.2.2.2.2.1,
        h2.2.2.2.2.2.2.2.1.trans h1.2.2.2.2.2.2.2.1,
        h2.2.2.2.2.2.2.2.2.1.trans h1.2.2.2.2.2.2.2.2.1⟩

lemma refresh_set_idem (prev_sets : List WorkoutSet) (ws : WorkoutSet) :
    refresh_set prev_sets ((refresh_set prev_sets ws).1) =
      ((refresh_set prev_sets ws).1, false) := by
  have hframe := refresh_set_frame prev_sets ws
  have hmatch : refresh_match prev_sets ((refresh_set prev_sets ws).1) =
      refresh_match prev_sets ws := by
    rw [refresh_match, refresh_match, hframe.1, hframe.2.1]
  cases hfind : refresh_match prev_sets ws with
  | none =>
      have h0 := refresh_set_eq_of_none prev_sets ws hfind
      have h1 := refresh_set_eq_of_none prev_sets ((refresh_set prev_sets ws).1)
        (hmatch.trans hfind)
      rw [h1]
  | some p =>
      have h0 := refresh_set_eq_of_find prev_sets ws p hfind
      have h1 := refresh_set_eq_of_find prev_sets ((refresh_set prev_sets ws).1)
        p (hmatch.trans hfind)
      have hreps : apply_reps_refresh p ((refresh_set prev_sets ws).1) =
          ((refresh_set prev_sets ws).1, false) := by
        refine apply_reps_refresh_nochange p _ (fun hp => ?_)
        rw [h0]
        exact (apply_weight_refresh_frame p
          (apply_reps_refresh p ws).1).2.2.2.2.2.2.2.2.2.trans
          (apply_reps_refresh_target_reps_pos p ws hp)
      have hwt : apply_weight_refresh p ((refresh_set prev_sets ws).1) =
          ((refresh_set prev_sets ws).1, false) := by
        refine apply_weight_refresh_nochange p _ (fun hp => ?_)
        rw [h0]
        exact apply_weight_refresh_target_weight_pos p _ hp
      rw [h1, hreps]
      simp [hwt]

lemma refresh_set_snd_false (prev_sets : List WorkoutSet) (ws : WorkoutSet)
    (h : (refresh_set prev_sets ws).2 = false) :
    (refresh_set prev_sets ws).1 = ws := by
  cases hfind : refresh_match prev_sets ws with
  | none => rw [refresh_set_eq_of_none prev_sets ws hfind]
  | some p =>
      rw [refresh_set_eq_of_find prev_sets ws p hfind] at h ⊢
      simp only [Bool.or_eq_false_iff] at h
      have ha : apply_reps_refresh p ws = (ws, false) := by
        have := h.1
        rw [apply_reps_refresh] at this ⊢
        split at this
        · simp at this
        · rename_i hcond
          rw [if_neg hcond]
      rw [ha] at h ⊢
      have hb := h.2
      rw [apply_weight_refresh] at hb ⊢
      split at hb
      · split at hb
        · simp at hb
        · rename_i hcond _
          rw [if_pos hcond]
          split
          · simp_all
          · rfl
      · rename_i hcond
        rw [if_neg hcond]

lemma refresh_sets_components (prev_sets sets : List WorkoutSet) :
    (refresh_sets prev_sets sets).1 =
      sets.map (fun ws => (refresh_set prev_sets ws).1) ∧
    (refresh_sets prev_sets sets).2 =
      sets.any (fun ws => (refresh_set prev_sets ws).2) := by
  constructor
  · simp only [refresh_sets, List.map_map]
    rfl
  · induction sets with
    | nil => rfl
    | cons a l ih =>
        simp only [refresh_sets, List.map_cons, List.any_cons] at ih ⊢
        rw [ih]

lemma refresh_sets_idem (prev_sets sets : List WorkoutSet) :
    refresh_sets prev_sets (refresh_sets prev_sets sets).1 =
      ((refresh_sets prev_sets sets).1, false) := by
  have h1 := refresh_sets_components prev_sets sets
  have h2 := refresh_sets_components prev_sets ((refresh_sets prev_sets sets).1)
  rw [Prod.ext_iff]
  constructor
  · rw [h2.1, h1.1, List.map_map]
    refine List.map_congr_left (fun ws _ => ?_)
    show (refresh_set prev_sets ((refresh_set prev_sets ws).1)).1 =
      (refresh_set prev_sets ws).1
    rw [refresh_set_idem prev_sets ws]
  · rw [h2.2, h1.1, List.any_map, List.any_eq_false]
    intro ws _
    simp only [Function.comp_apply]
    intro hcontra
    have hsnd := congrArg Prod.snd (refresh_set_idem prev_sets ws)
    simp only [hcontra] at hsnd
    exact Bool.true_eq_false.mp hsnd

/-- C4: the Target Refresher is idempotent.  With fixed previous-session
data, the second application of the read-triggered refresh reports
`changed = false` and leaves the stored session (hence every set's
`target_weight` and `target_reps`) exactly as after the first
application; since the refresh commits only when the dirty flag is set,
the second read performs no storage write. -/
theorem target_refresh_idempotent (prev : Option (List WorkoutSet))
    (s : WorkoutSession) :
    (target_refresh prev (target_refresh prev s).1).2 = false ∧
    (target_refresh prev (target_refresh prev s).1).1 =
      (target_refresh prev s).1 := by
  by_cases hgate : s.status = "in_progress" ∧ s.week_number > 1
  · cases prev with
    | none => simp [target_refresh, hgate]
    | some ps =>
        cases hdirty : (refresh_sets ps s.sets).2 with
        | false =>
            have hfirst : target_refresh (some ps) s = (s, false) := by
              simp [target_refresh, hgate, hdirty]
            rw [hfirst]
            simp [target_refresh, hgate, hdirty]
        | true =>
            have hfirst : target_refresh (some ps) s =
                ({ s with sets := (refresh_sets ps s.sets).1 }, true) := by
              simp [target_refresh, hgate, hdirty]
            rw [hfirst]
            have hidem := refresh_sets_idem ps s.sets
            simp [target_refresh, hgate, hidem]
  · have hfirst : target_refresh prev s = (s, false) := by
      cases prev <;> simp [target_refresh, hgate]
    rw [hfirst]
    constructor
    · cases prev <;> simp [target_refresh, hgate]
    · cases prev <;> simp [target_refresh, hgate]

/-- C10: frame condition of the refresher loop body.  Only `target_reps`
and `target_weight` can change, and only for a set matched (by exercise
and set number) in the previous session; unmatched sets are returned
untouched; an existing `target_weight` is never cleared to null; and
when the matched previous set has no positive logged weight the current
`target_weight` is left unchanged. -/
theorem refresher_frame_condition (prev_sets : List WorkoutSet)
    (ws : WorkoutSet) :
    ((refresh_set prev_sets ws).1).exercise_id = ws.exercise_id ∧
    ((refresh_set prev_sets ws).1).set_number = ws.set_number ∧
    ((refresh_set prev_sets ws).1).order_index = ws.order_index ∧
    ((refresh_set prev_sets ws).1).weight = ws.weight ∧
    ((refresh_set prev_sets ws).1).reps = ws.reps ∧
    ((refresh_set prev_sets ws).1).rir = ws.rir ∧
    ((refresh_set prev_sets ws).1).skipped = ws.skipped ∧
    ((refresh_set prev_sets ws).1).notes = ws.notes ∧
    ((refresh_set prev_sets ws).1).target_rir = ws.target_rir ∧
    (refresh_match prev_sets ws = none → refresh_set prev_sets ws = (ws, false)) ∧
    (∀ q, ws.target_weight = some q →
      ∃ q', ((refresh_set prev_sets ws).1).target_weight = some q') ∧
    (∀ p, refresh_match prev_sets ws = some p → ¬ p.weight > 0 →
      ((refresh_set prev_sets ws).1).target_weight = ws.target_weight) := by
  have hframe := refresh_set_frame prev_sets ws
  refine ⟨hframe.1, hframe.2.1, hframe.2.2.1, hframe.2.2.2.1,
    hframe.2.2.2.2.1, hframe.2.2.2.2.2.1, hframe.2.2.2.2.2.2.1,
    hframe.2.2.2.2.2.2.2.1, hframe.2.2.2.2.2.2.2.2,
    fun hnone => refresh_set_eq_of_none prev_sets ws hnone,
    fun q hq => ?_, fun p hp hw => ?_⟩
  · cases hfind : refresh_match prev_sets ws with
    | none => rw [refresh_set_eq_of_none prev_sets ws hfind]; exact ⟨q, hq⟩
    | some p =>
        rw [refresh_set_eq_of_find prev_sets ws p hfind]
        rcases apply_weight_refresh_keeps_or_sets p
            (apply_reps_refresh p ws).1 with h | h
        · refine ⟨q, ?_⟩
          rw [h, (apply_reps_refresh_frame p ws).2.2.2.2.2.2.2.2.2, hq]
        · exact ⟨refresh_new_target p, h⟩
  · rw [refresh_set_eq_of_find prev_sets ws p hp]
    rw [congrArg Prod.fst (apply_weight_refresh_neg p _ hw)]
    exact (apply_reps_refresh_frame p ws).2.2.2.2.2.2.2.2.2

/-- Witness for C10: with an empty previous session no set is touched. -/
theorem refresher_frame_condition_witness :
    refresh_match [] sampleSet = none ∧
    refresh_set [] sampleSet = (sampleSet, false) :=
  ⟨rfl, (refresher_frame_condition [] sampleSet).2.2.2.2.2.2.2.2.2.1 rfl⟩

/-! ### Concrete fixtures for the mutation-operation claims -/

def completedSession : WorkoutSession :=
  { id := 5
    user_id := 1
    week_number := 2
    day_number := 1
    status := "completed"
    sets := [sampleSet] }

def weightOnlyUpdate : WorkoutSetUpdate := { weight := some 50 }

def completedSessionUpdated : WorkoutSession :=
  { completedSession with sets := [{ sampleSet with weight := 50 }] }

def exampleLookup : ℤ → Option Exercise := fun i =>
  if i = 1 then some ⟨1, "Chest"⟩
  else if i = 2 then some ⟨2, "Back"⟩
  else none

def openSession : WorkoutSession :=
  { id := 6
    user_id := 1
    week_number := 2
    day_number := 1
    status := "in_progress"
    sets := [sampleSet] }

def sameSwapSet : WorkoutSet :=
  { sampleSet with
      weight := 0
      reps := 0
      target_weight := none
      skipped := 0 }

def sameSwapResult : WorkoutSession :=
  { openSession with sets := [sameSwapSet] }

def swappedSet : WorkoutSet :=
  { sampleSet with
      exercise_id := 2
      weight := 0
      reps := 0
      target_weight := none
      skipped := 0 }

def swappedSession : WorkoutSession :=
  { openSession with sets := [swappedSet] }

/-- Counterexample to C3 as stated: the individual set PATCH endpoint
performs no completed-status check, so on a completed session it
succeeds and mutates the set, contradicting "every operation that
mutates the session's sets fails ... including individual set
create/update/delete". -/
theorem completed_set_update_succeeds :
    completedSession.status = "completed" ∧
    update_workout_set completedSession 1 weightOnlyUpdate =
      Except.ok completedSessionUpdated ∧
    completedSessionUpdated.sets ≠ completedSession.sets := by
  exact ⟨rfl, rfl, by decide⟩

/-- C3 (amended): on a completed session the five exercise-management
operations (swap exercise, remove exercise, add exercise, add set to
exercise, remove set from exercise) all fail with the
"Cannot modify a completed session" error and leave the sets unchanged;
the individual set create/update/delete endpoints perform no such
check. -/
theorem completed_session_mutations_rejected (s : WorkoutSession)
    (hc : s.status = "completed") :
    (∀ lookup old_id new_id, swap_exercise lookup s old_id new_id =
      .error (.badRequest "Cannot modify a completed session")) ∧
    (∀ eid, remove_exercise s eid =
      .error (.badRequest "Cannot modify a completed session")) ∧
    (∀ lookup eid tw, add_exercise lookup s eid tw =
      .error (.badRequest "Cannot modify a completed session")) ∧
    (∀ eid, add_set_to_exercise s eid =
      .error (.badRequest "Cannot modify a completed session")) ∧
    (∀ eid, remove_set_from_exercise s eid =
      .error (.badRequest "Cannot modify a completed session")) := by
  have hrej : reject_if_completed s =
      .error (.badRequest "Cannot modify a completed session") := by
    rw [reject_if_completed, if_pos hc]
  refine ⟨fun lookup old_id new_id => ?_, fun eid => ?_,
    fun lookup eid tw => ?_, fun eid => ?_, fun eid => ?_⟩ <;>
    simp [swap_exercise, remove_exercise, add_exercise, add_set_to_exercise,
      remove_set_from_exercise, hrej, Bind.bind, Except.bind]

/-- Witness for the amended C3 at a concrete completed session. -/
theorem completed_session_mutations_rejected_witness :
    completedSession.status = "completed" ∧
    swap_exercise exampleLookup completedSession 1 2 =
      .error (.badRequest "Cannot modify a completed session") :=
  ⟨rfl, (completed_session_mutations_rejected completedSession
    rfl).1 exampleLookup 1 2⟩

/-- Counterexample to C6 as stated: swapping an exercise for itself
(`old_exercise_id = new_exercise_id = 1`) succeeds on a non-completed
session, yet a set referencing the old exercise id remains. -/
theorem swap_same_exercise_keeps_old_reference :
    openSession.status ≠ "completed" ∧
    swap_exercise exampleLookup openSession 1 1 = Except.ok sameSwapResult ∧
    sameSwapResult.sets.any (fun ws => ws.exercise_id == 1) = true := by
  exact ⟨by decide, rfl, by decide⟩

lemma mem_zip_self_map {α β : Type} (l : List α) (f : α → β) (pr : α × β)
    (h : pr ∈ l.zip (l.map f)) : pr.2 = f pr.1 := by
  induction l with
  | nil => simp at h
  | cons a t ih =>
      simp only [List.map_cons, List.zip_cons_cons, List.mem_cons] at h
      rcases h with h | h
      · rw [h]
      · exact ih h

lemma swap_exercise_ok_inv (lookup : ℤ → Option Exercise)
    (s : WorkoutSession) (old_id new_id : ℤ) (s' : WorkoutSession)
    (h : swap_exercise lookup s old_id new_id = .ok s') :
    s' = { s with sets := s.sets.map (migrate_set old_id new_id) } := by
  unfold swap_exercise reject_if_completed at h
  by_cases hc : s.status = "completed"
  · rw [if_pos hc] at h
    simp [Bind.bind, Except.bind] at h
  · rw [if_neg hc] at h
    simp only [Bind.bind, Except.bind] at h
    cases hlk : lookup new_id with
    | none => rw [hlk] at h; simp at h
    | some ex =>
        rw [hlk] at h
        by_cases hemp :
            (s.sets.filter (fun ws => ws.exercise_id = old_id)).isEmpty = true
        · rw [if_pos hemp] at h; simp at h
        · rw [if_neg hemp] at h
          simpa using h.symm

/-- C6 (amended): for a swap of an exercise for a *different* one
(`old_exercise_id ≠ new_exercise_id`), after `swap_exercise` succeeds no
set references the old exercise; the set list keeps its length; every
migrated set has weight 0, reps 0, `target_weight` null and `skipped`
cleared while its `target_reps`, `target_rir`, `set_number`,
`order_index`, `rir` and `notes` are unchanged; other sets are
untouched.  (The claim as universally stated fails when
`old_exercise_id = new_exercise_id`.) -/
theorem swap_exercise_spec (lookup : ℤ → Option Exercise)
    (s : WorkoutSession) (old_id new_id : ℤ) (hne : old_id ≠ new_id)
    (s' : WorkoutSession)
    (h : swap_exercise lookup s old_id new_id = .ok s') :
    (∀ ws ∈ s'.sets, ws.exercise_id ≠ old_id) ∧
    s'.sets.length = s.sets.length ∧
    ∀ pr ∈ s.sets.zip s'.sets,
      (pr.1.exercise_id = old_id →
        pr.2.exercise_id = new_id ∧ pr.2.weight = 0 ∧ pr.2.reps = 0 ∧
        pr.2.target_weight = none ∧ pr.2.skipped = 0 ∧
        pr.2.target_reps = pr.1.target_reps ∧
        pr.2.target_rir = pr.1.target_rir ∧
        pr.2.set_number = pr.1.set_number ∧
        pr.2.order_index = pr.1.order_index ∧
        pr.2.rir = pr.1.rir ∧ pr.2.notes = pr.1.notes) ∧
      (pr.1.exercise_id ≠ old_id → pr.2 = pr.1) := by
  have hs' := swap_exercise_ok_inv lookup s old_id new_id s' h
  subst hs'
  refine ⟨?_, by simp, ?_⟩
  · intro ws hws
    simp only [List.mem_map] at hws
    rcases hws with ⟨x, _, rfl⟩
    rw [migrate_set]
    by_cases hxe : x.exercise_id = old_id
    · rw [if_pos hxe]
      exact Ne.symm hne
    · rw [if_neg hxe]
      exact hxe
  · intro pr hpr
    have h2 := mem_zip_self_map s.sets (migrate_set old_id new_id) pr hpr
    constructor
    · intro hold
      rw [h2, migrate_set, if_pos hold]
      exact ⟨rfl, rfl, rfl, rfl, rfl, rfl, rfl, rfl, rfl, rfl, rfl⟩
    · intro hold
      rw [h2, migrate_set, if_neg hold]

/-- Witness for the amended C6: swapping exercise 1 for exercise 2 in a
concrete open session. -/
theorem swap_exercise_spec_witness :
    (1 : ℤ) ≠ 2 ∧
    swap_exercise exampleLookup openSession 1 2 = Except.ok swappedSession ∧
    ∀ ws ∈ swappedSession.sets, ws.exercise_id ≠ (1 : ℤ) :=
  ⟨by decide, rfl,
   (swap_exercise_spec exampleLookup openSession 1 2 (by decide)
     swappedSession rfl).1⟩

def sampleSet2 : WorkoutSet :=
  { sampleSet with
      id := 2
      set_number := 2 }

def twoSetSession : WorkoutSession :=
  { id := 7
    user_id := 1
    week_number := 1
    day_number := 1
    status := "in_progress"
    sets := [sampleSet, sampleSet2] }

lemma filter_comm' {α : Type} (p q : α → Bool) (l : List α) :
    (l.filter p).filter q = (l.filter q).filter p := by
  induction l with
  | nil => rfl
  | cons a t ih =>
      by_cases hp : p a <;> by_cases hq : q a <;>
        simp [List.filter_cons, hp, hq, ih]

lemma length_filter_ne_key (l : List WorkoutSet) (v : WorkoutSet)
    (hv : v ∈ l) (hnd : (l.map (fun ws => ws.id)).Nodup) :
    (l.filter (fun ws => ws.id ≠ v.id)).length = l.length - 1 := by
  induction l with
  | nil => simp at hv
  | cons a t ih =>
      simp only [List.map_cons, List.nodup_cons] at hnd
      rcases List.mem_cons.mp hv with heq | hvt
      · subst heq
        have hkeep : t.filter (fun ws => ws.id ≠ v.id) = t := by
          refine List.filter_eq_self.mpr (fun x hx => ?_)
          rw [decide_eq_true_eq]
          intro hcontra
          exact hnd.1 (hcontra ▸ List.mem_map_of_mem _ hx)
        rw [List.filter_cons_of_neg (by simp), hkeep, List.length_cons]
        omega
      · have hane : a.id ≠ v.id := fun hcontra =>
          hnd.1 (by rw [hcontra]; exact List.mem_map_of_mem _ hvt)
        have ht := ih hvt hnd.2
        have hpos : 1 ≤ t.length :=
          List.length_pos.mpr (List.ne_nil_of_mem hvt)
        simp only [List.filter_cons]
        rw [if_pos (decide_eq_true hane), List.length_cons,
          List.length_cons, ht]
        omega

lemma remove_set_ok_inv (s : WorkoutSession) (eid : ℤ) (s' : WorkoutSession)
    (h : remove_set_from_exercise s eid = .ok s') :
    ∃ victim,
      last_set_of (s.sets.filter (fun ws => ws.exercise_id = eid)) =
        some victim ∧
      ¬ (s.sets.filter (fun ws => ws.exercise_id = eid)).length ≤ 1 ∧
      s' = { s with sets := s.sets.filter (fun ws => ws.id ≠ victim.id) } := by
  unfold remove_set_from_exercise reject_if_completed at h
  by_cases hc : s.status = "completed"
  · rw [if_pos hc] at h
    simp [Bind.bind, Except.bind] at h
  · rw [if_neg hc] at h
    simp only [Bind.bind, Except.bind] at h
    split at h
    · simp at h
    · rename_i v hlast
      split at h
      · simp at h
      · rename_i hlen
        exact ⟨v, hlast, hlen, by simpa using h.symm⟩

/-- C7: on a non-completed session, removing a set from an exercise with
exactly one set fails with the "Cannot remove the last set" error (the
pure model leaves the sets untouched on every error); on success the
operation deletes exactly one set, a set of that exercise with the
highest `set_number`, so the per-exercise set count drops by exactly one
and never reaches 0 through this operation. -/
theorem remove_set_spec (s : WorkoutSession) (eid : ℤ)
    (hnc : s.status ≠ "completed")
    (hnd : (s.sets.map (fun ws => ws.id)).Nodup) :
    ((s.sets.filter (fun ws => ws.exercise_id = eid)).length = 1 →
      remove_set_from_exercise s eid =
        .error (.badRequest "Cannot remove the last set")) ∧
    (∀ s', remove_set_from_exercise s eid = .ok s' →
      ∃ victim,
        victim ∈ s.sets.filter (fun ws => ws.exercise_id = eid) ∧
        (∀ x ∈ s.sets.filter (fun ws => ws.exercise_id = eid),
          x.set_number ≤ victim.set_number) ∧
        s'.sets = s.sets.filter (fun ws => ws.id ≠ victim.id) ∧
        (s'.sets.filter (fun ws => ws.exercise_id = eid)).length =
          (s.sets.filter (fun ws => ws.exercise_id = eid)).length - 1 ∧
        1 ≤ (s'.sets.filter (fun ws => ws.exercise_id = eid)).length) := by
  constructor
  · intro hlen
    rcases List.length_eq_one.mp hlen with ⟨v, hv⟩
    unfold remove_set_from_exercise reject_if_completed
    rw [if_neg hnc]
    simp only [Bind.bind, Except.bind]
    rw [hv]
    have hlast : last_set_of [v] = some v := rfl
    rw [hlast]
    simp
  · intro s' h
    rcases remove_set_ok_inv s eid s' h with ⟨v, hlast, hgt, rfl⟩
    have hvmem : v ∈ s.sets.filter (fun ws => ws.exercise_id = eid) :=
      List.argmax_mem (Option.mem_def.mpr hlast)
    have hndf : ((s.sets.filter (fun ws => ws.exercise_id = eid)).map
        (fun ws => ws.id)).Nodup :=
      List.Nodup.sublist (List.Sublist.map _ (List.filter_sublist _)) hnd
    have hcnt : ((s.sets.filter (fun ws => ws.id ≠ v.id)).filter
        (fun ws => ws.exercise_id = eid)).length =
        (s.sets.filter (fun ws => ws.exercise_id = eid)).length - 1 := by
      rw [filter_comm']
      exact length_filter_ne_key _ v hvmem hndf
    refine ⟨v, hvmem,
      fun x hx => List.le_of_mem_argmax hx (Option.mem_def.mpr hlast),
      rfl, hcnt, ?_⟩
    have h2 : 2 ≤ (s.sets.filter (fun ws => ws.exercise_id = eid)).length := by
      omega
    rw [show (({ s with sets := s.sets.filter (fun ws => ws.id ≠ v.id) } :
        WorkoutSession)).sets = s.sets.filter (fun ws => ws.id ≠ v.id)
        from rfl, hcnt]
    omega

/-- Witness for C7 at a concrete two-set session (it applies the theorem
at `twoSetSession`, exercise 1). -/
theorem remove_set_spec_witness :
    twoSetSession.status ≠ "completed" ∧
    (twoSetSession.sets.map (fun ws => ws.id)).Nodup ∧
    (((twoSetSession.sets.filter (fun ws => ws.exercise_id = (1 : ℤ))).length = 1 →
      remove_set_from_exercise twoSetSession 1 =
        .error (.badRequest "Cannot remove the last set")) ∧
    (∀ s', remove_set_from_exercise twoSetSession 1 = .ok s' →
      ∃ victim,
        victim ∈ twoSetSession.sets.filter (fun ws => ws.exercise_id = (1 : ℤ)) ∧
        (∀ x ∈ twoSetSession.sets.filter (fun ws => ws.exercise_id = (1 : ℤ)),
          x.set_number ≤ victim.set_number) ∧
        s'.sets = twoSetSession.sets.filter (fun ws => ws.id ≠ victim.id) ∧
        (s'.sets.filter (fun ws => ws.exercise_id = (1 : ℤ))).length =
          (twoSetSession.sets.filter (fun ws => ws.exercise_id = (1 : ℤ))).length - 1 ∧
        1 ≤ (s'.sets.filter (fun ws => ws.exercise_id = (1 : ℤ))).length)) :=
  ⟨by decide, by decide, remove_set_spec twoSetSession 1 (by decide) (by decide)⟩

end MetricGain
